import Mathlib

/-!
Shallow embedding of the meeting-room booking application (`src/app.py`):
the booking conflict engine, the OTP-gated two-phase reservation workflow,
the daily send rate limiter, and the bulk CSV import check.

Conventions of the embedding:
* Python `datetime.time` values (always of the form HH:MM here) are embedded
  as minutes since midnight (`Nat`); comparison of `time` objects coincides
  with numeric comparison of minutes, and `t.minute` is `t % 60`.
* UTC timestamps (`datetime.utcnow().timestamp()`) are embedded as `Nat`
  seconds; only order comparisons and additions are performed on them.
* `sha256((salt + ":" + otp))` is embedded as the (injective) encoding
  `salt ++ ":" ++ otp`; the code only ever tests digests for equality, and
  the embedding idealises SHA-256 as collision-free.
* The random generators `otp_random` / `otp_salt` are embedded by passing
  the freshly generated passcode and salt as explicit parameters.
* `st.session_state` (the OTP context and the approver-PIN flag), the
  bookings CSV and the rate-limit JSON file are gathered into one `AppState`
  record; `load_bookings` / `save_bookings` become reads and writes of the
  `bookings` field (the `st.cache_data` cache is invalidated on every write,
  so reads always see the stored list).
-/

namespace MeetingRoom

/-! ## Configuration constants (`app.py` CONFIG section) -/

def SLOT_MINUTES : Nat := 30
/-- `BUSINESS_HOURS[0]` = 09:00, as minutes since midnight. -/
def BUSINESS_OPEN : Nat := 9 * 60
/-- `BUSINESS_HOURS[1]` = 19:00, as minutes since midnight. -/
def BUSINESS_CLOSE : Nat := 19 * 60
def OTP_LENGTH : Nat := 6
def OTP_TTL_MINUTES : Nat := 5
def OTP_MAX_ATTEMPTS : Int := 5
def OTP_RESEND_COOLDOWN_SECONDS : Nat := 45
def OTP_DAILY_LIMIT : Nat := 50

/-- The ids of the fixed `ROOMS` list (mr1, mr2, mr3 and the gated board
room `br`). -/
def ROOM_IDS : List String := ["mr1", "mr2", "mr3", "br"]

/-! ## Data model -/

/-- One row of `bookings.csv` (columns as written by the app).  Times are
minutes since midnight; all other columns are the stored strings. -/
structure Booking where
  room_id : String
  room_name : String
  date : String
  start_time : Nat
  end_time : Nat
  booked_by : String
  title : String
  created_at : String
deriving DecidableEq, Inhabited

/-! ## Booking logic -/

/-- `overlaps(s1, e1, s2, e2) = (s1 < e2) and (s2 < e1)` — the half-open
interval overlap test. -/
def overlaps (s1 e1 s2 e2 : Nat) : Bool :=
  (s1 < e2) && (s2 < e1)

/-- `f"{n:02d}"` for the two components of a time. -/
def pad2 (n : Nat) : String :=
  if n < 10 then "0" ++ toString n else toString n

/-- `fmt_time`: renders minutes-since-midnight as `HH:MM`. -/
def fmt_time (t : Nat) : String :=
  pad2 (t / 60) ++ ":" ++ pad2 (t % 60)

/-- `validate_booking(new_row, df)`: returns `none` on acceptance, or
`some message` with the first failing check's message.  Checks, in source
order: end after start; business hours; 30-minute slot alignment of both
times (the code tests `t.minute % SLOT_MINUTES != 0`, i.e. `t % 60 % 30`);
half-open overlap against every existing row with the same room and date. -/
def validate_booking (new_row : Booking) (df : List Booking) : Option String :=
  if new_row.end_time ≤ new_row.start_time then
    some "End time must be after start time."
  else if new_row.start_time < BUSINESS_OPEN ∨ BUSINESS_CLOSE < new_row.end_time then
    some ("Booking must be within business hours " ++ fmt_time BUSINESS_OPEN ++
      "–" ++ fmt_time BUSINESS_CLOSE ++ ".")
  else if new_row.start_time % 60 % SLOT_MINUTES ≠ 0 ∨ new_row.end_time % 60 % SLOT_MINUTES ≠ 0 then
    some ("Time must align with " ++ toString SLOT_MINUTES ++
      "-minute slots (e.g., 09:00, 09:30, 10:00).")
  else
    let same_day := df.filter (fun r => r.room_id == new_row.room_id && r.date == new_row.date)
    match same_day.find? (fun r =>
        overlaps new_row.start_time new_row.end_time r.start_time r.end_time) with
    | some r => some ("Conflict with existing booking " ++ fmt_time r.start_time ++
        "–" ++ fmt_time r.end_time ++ ".")
    | none => none

/-! ## Email shape check -/

/-- The whitespace class of the Python regex `\s` (ASCII part). -/
def isPySpace (c : Char) : Bool :=
  c == ' ' || c == '\t' || c == '\n' || c == '\r' || c == '\x0b' || c == '\x0c'

/-- A character admissible in the regex class `[^@\s]`. -/
def emailChar (c : Char) : Bool :=
  !(c == '@') && !isPySpace c

/-- Python `str.strip()`: drops whitespace from both ends. -/
def pyStrip (s : String) : String :=
  String.mk (((s.toList.dropWhile isPySpace).reverse.dropWhile isPySpace).reverse)

/-- `is_email(s)`: `re.match(r"^[^@\s]+@[^@\s]+\.[^@\s]+$", s.strip())`.
A string matches exactly when, after trimming, it splits as
`local ++ "@" ++ domain` with a nonempty `@`-free whitespace-free local
part, and a domain of admissible characters containing a `.` that is
neither its first nor its last character. -/
def is_email (s : String) : Bool :=
  let cs := (pyStrip s).toList
  let loc := cs.takeWhile (fun c => !(c == '@'))
  match cs.dropWhile (fun c => !(c == '@')) with
  | [] => false
  | _ :: dom =>
      (!loc.isEmpty && loc.all emailChar) &&
      (dom.all emailChar && ((dom.drop 1).dropLast.contains '.'))

/-! ## OTP session -/

/-- `st.session_state["otp_ctx"]`: the single global OTP approval context. -/
structure OtpCtx where
  salt : String
  hash : String
  /-- UTC timestamp (seconds) after which the passcode is expired. -/
  expires_at : Nat
  /-- Python int; decremented on each failed verification. -/
  attempts_left : Int
  /-- Earliest UTC timestamp at which a resend is allowed. -/
  resend_at : Nat
  verified : Bool
  approver_email : String
  booking_row : Booking
deriving DecidableEq

/-- `otp_hash(otp, salt) = sha256(salt + ":" + otp)`.  The digest is only
ever compared for equality, so SHA-256 is idealised as the injective
encoding `salt ++ ":" ++ otp`. -/
def otp_hash (otp salt : String) : String :=
  salt ++ ":" ++ otp

/-- `otp_start_session(booking_row, approver_email)`: builds the fresh
session context.  The freshly generated passcode and salt are explicit
parameters (the source draws them from `secrets` / `os.urandom`); the
caller receives the plaintext `fresh_otp` for delivery. -/
def otp_start_session (booking_row : Booking) (approver_email : String)
    (now : Nat) (fresh_otp fresh_salt : String) : OtpCtx :=
  { salt := fresh_salt
    hash := otp_hash fresh_otp fresh_salt
    expires_at := now + OTP_TTL_MINUTES * 60
    attempts_left := OTP_MAX_ATTEMPTS
    resend_at := now + OTP_RESEND_COOLDOWN_SECONDS
    verified := false
    approver_email := approver_email
    booking_row := booking_row }

/-- `otp_resend()`: on a missing session fails with `"No OTP session."`;
otherwise rotates passcode/salt/hash, resets expiry, attempts and the
resend cooldown, clears `verified`, and returns the new plaintext. -/
def otp_resend (now : Nat) (fresh_otp fresh_salt : String) :
    Option OtpCtx → (Bool × String) × Option OtpCtx
  | none => ((false, "No OTP session."), none)
  | some ctx =>
      ((true, fresh_otp),
        some { ctx with
          salt := fresh_salt
          hash := otp_hash fresh_otp fresh_salt
          expires_at := now + OTP_TTL_MINUTES * 60
          attempts_left := OTP_MAX_ATTEMPTS
          resend_at := now + OTP_RESEND_COOLDOWN_SECONDS
          verified := false })

/-- `otp_verify(user_otp)`: returns the `(ok, message)` pair and the
(possibly mutated) session context.  Checks in source order: session
missing, already verified, expired, locked, then salted-hash comparison
of the stripped candidate. -/
def otp_verify (now : Nat) (user_otp : String) :
    Option OtpCtx → (Bool × String) × Option OtpCtx
  | none => ((false, "Session missing."), none)
  | some ctx =>
      if ctx.verified then ((true, "Already verified."), some ctx)
      else if ctx.expires_at < now then
        ((false, "OTP expired. Please resend."), some ctx)
      else if ctx.attempts_left ≤ 0 then
        ((false, "Too many wrong attempts. Please resend."), some ctx)
      else if otp_hash (pyStrip user_otp) ctx.salt = ctx.hash then
        ((true, "Verified."), some { ctx with verified := true })
      else
        ((false, "Incorrect OTP. Attempts left: " ++ toString (ctx.attempts_left - 1)),
          some { ctx with attempts_left := ctx.attempts_left - 1 })

/-! ## Rate limiter -/

/-- The contents of `otp_rate_limits.json`, as an association list with the
most recent write first (`lookup` therefore has Python-dict read
semantics). -/
def RateMap := List (String × Nat)
deriving DecidableEq

/-- `data.get(k, 0)`. -/
def rate_get (data : RateMap) (k : String) : Nat :=
  ((data : List (String × Nat)).lookup k).getD 0

/-- `otp_bucket_key(identifier)` for a given UTC day string. -/
def otp_bucket_key (identifier day : String) : String :=
  identifier ++ "::" ++ day

/-- `otp_can_send(identifier)` → `(allowed, remaining)`. -/
def otp_can_send (data : RateMap) (identifier day : String) : Bool × Int :=
  let c := rate_get data (otp_bucket_key identifier day)
  (c < OTP_DAILY_LIMIT, (OTP_DAILY_LIMIT : Int) - c)

/-- `otp_inc_send(identifier)`: bumps the day bucket by one. -/
def otp_inc_send (data : RateMap) (identifier day : String) : RateMap :=
  let k := otp_bucket_key identifier day
  ((k, rate_get data k + 1) :: (data : List (String × Nat)))

/-! ## Application state -/

/-- The mutable state of one app process: the bookings store
(`bookings.csv`, always re-read after `save_bookings` clears the cache),
the session-state OTP context and approver-PIN flag, and the rate-limit
file contents. -/
structure AppState where
  bookings : List Booking
  otp_ctx : Option OtpCtx
  rate : RateMap
  approver_pin_ok : Bool
deriving DecidableEq

/-- The state of a freshly started process with empty stores. -/
def initState : AppState :=
  { bookings := [], otp_ctx := none, rate := [], approver_pin_ok := false }

/-- `otp_reset()`: deletes the OTP context and pops the PIN flag. -/
def otp_reset (st : AppState) : AppState :=
  { st with otp_ctx := none, approver_pin_ok := false }

/-! ## Booking submission (`room_card` form handler) -/

/-- Outcome of submitting the Quick Book form. -/
inductive BookResult where
  /-- "Please provide Title and Booked By." -/
  | missingFields
  /-- `validate_booking` returned an error message. -/
  | validationError (msg : String)
  /-- Ungated room: the row was appended to the store. -/
  | directCommit
  /-- "Approver email not configured correctly on server." -/
  | approverNotConfigured
  /-- "Daily OTP limit reached for approver. Try later." -/
  | dailyLimit
  /-- "Could not send OTP email: …"; the session was cleared. -/
  | deliveryFailed (msg : String)
  /-- "Request received. OTP emailed to approver for confirmation." -/
  | pendingApproval
deriving DecidableEq

/-- Result of one submission: outcome, new state, and whether an email
delivery was attempted. -/
structure BookStep where
  result : BookResult
  state : AppState
  email_attempted : Bool
deriving DecidableEq

/-- The submitted-form branch of `room_card` (lines 403–444): validate the
candidate row against the store; commit directly for ungated rooms; for
the board room check the approver email shape and the daily send limit,
start an OTP session, attempt delivery (`delivery_ok` is the abstract
SMTP result), clearing the session on failure and recording the send on
success.  `now` is the UTC timestamp and `day` the UTC day string used
for rate-limit buckets; `fresh_otp`/`fresh_salt` are the generated
secrets. -/
def room_card_book (st : AppState) (row : Booking) (now : Nat) (day : String)
    (approver_email fresh_otp fresh_salt : String)
    (delivery_ok : Bool) (delivery_msg : String) : BookStep :=
  if row.title = "" ∨ row.booked_by = "" then
    ⟨.missingFields, st, false⟩
  else
    match validate_booking row st.bookings with
    | some err => ⟨.validationError err, st, false⟩
    | none =>
        if row.room_id ≠ "br" then
          ⟨.directCommit, { st with bookings := st.bookings ++ [row] }, false⟩
        else if is_email approver_email = false then
          ⟨.approverNotConfigured, st, false⟩
        else if (otp_can_send st.rate approver_email day).1 = false then
          ⟨.dailyLimit, st, false⟩
        else
          let ctx := otp_start_session row approver_email now fresh_otp fresh_salt
          if delivery_ok = false then
            ⟨.deliveryFailed delivery_msg, otp_reset { st with otp_ctx := some ctx }, true⟩
          else
            ⟨.pendingApproval,
              { st with otp_ctx := some ctx,
                        rate := otp_inc_send st.rate approver_email day }, true⟩

/-! ## OTP verification panel -/

/-- `if pin_try and pin_try == str(APPROVER_PIN)` — the PIN unlock
button. -/
def pin_unlock (st : AppState) (pin_try approver_pin : String) : AppState :=
  if pin_try ≠ "" ∧ pin_try = approver_pin then
    { st with approver_pin_ok := true }
  else st

/-- Outcome of pressing "Verify OTP" in `otp_verification_panel`. -/
inductive PanelVerifyResult where
  /-- No session: the panel renders nothing. -/
  | noSession
  /-- Approver PIN not yet entered: only the unlock form is shown. -/
  | pinLocked
  /-- "Please enter a valid 6-digit numeric OTP." -/
  | invalidFormat
  /-- "✅ Approved & Booked: …" — the pending row was appended. -/
  | approvedBooked (row : Booking)
  /-- The `otp_verify` failure message. -/
  | verifyFailed (msg : String)
deriving DecidableEq

/-- The "Verify OTP" button handler (lines 451–488): on a successful
`otp_verify` the pending `booking_row` is appended to the store — with no
re-validation against the current bookings — and the session is reset;
on failure the (possibly decremented) context is kept. -/
def otp_panel_verify (st : AppState) (now : Nat) (user_otp : String) :
    PanelVerifyResult × AppState :=
  match st.otp_ctx with
  | none => (.noSession, st)
  | some ctx =>
      if st.approver_pin_ok = false then (.pinLocked, st)
      else if ¬ (user_otp ≠ "" ∧ user_otp.toList.all Char.isDigit ∧
          user_otp.length = OTP_LENGTH) then
        (.invalidFormat, st)
      else
        match otp_verify now user_otp (some ctx) with
        | ((true, _), _) =>
            let row := ctx.booking_row
            (.approvedBooked row,
              otp_reset { st with bookings := st.bookings ++ [row] })
        | ((false, msg), ctx2) => (.verifyFailed msg, { st with otp_ctx := ctx2 })

/-- Outcome of pressing "Resend OTP" in `otp_verification_panel`. -/
inductive PanelResendResult where
  | noSession
  | pinLocked
  /-- The button is disabled while `now < resend_at`. -/
  | cooldownActive
  /-- "New OTP emailed to approver." -/
  | resendEmailed
  /-- "Resend failed: …" — the rotated session is left intact. -/
  | resendDeliveryFailed (msg : String)
  /-- `otp_resend` itself failed (missing session). -/
  | resendFailed (msg : String)
deriving DecidableEq

/-- The "Resend OTP" button handler (lines 490–502): gated by the
cooldown, rotates the session via `otp_resend` and re-dispatches the
email; on delivery failure the session keeps the rotated passcode.  The
rate-limit store is never touched on this path. -/
def otp_panel_resend (st : AppState) (now : Nat) (fresh_otp fresh_salt : String)
    (delivery_ok : Bool) (delivery_msg : String) : PanelResendResult × AppState :=
  match st.otp_ctx with
  | none => (.noSession, st)
  | some ctx =>
      if st.approver_pin_ok = false then (.pinLocked, st)
      else if now < ctx.resend_at then (.cooldownActive, st)
      else
        match otp_resend now fresh_otp fresh_salt (some ctx) with
        | ((true, _), ctx2) =>
            if delivery_ok then (.resendEmailed, { st with otp_ctx := ctx2 })
            else (.resendDeliveryFailed delivery_msg, { st with otp_ctx := ctx2 })
        | ((false, msg), ctx2) => (.resendFailed msg, { st with otp_ctx := ctx2 })

/-! ## Bulk CSV upload (module-level handler, lines 612–640) -/

/-- `f"Overlap in {rid} on {d}: …"`. -/
def overlapMsg (rid d : String) (r1 r2 : Booking) : String :=
  "Overlap in " ++ rid ++ " on " ++ d ++ ": " ++
    fmt_time r1.start_time ++ "-" ++ fmt_time r1.end_time ++ " vs " ++
    fmt_time r2.start_time ++ "-" ++ fmt_time r2.end_time

/-- The overlap messages produced by the inner double loop over a single
(room, date) group: one message per index pair `i < j` whose half-open
intervals overlap. -/
def pairOverlapMsgs (rid d : String) : List Booking → List String
  | [] => []
  | r1 :: rest =>
      ((rest.filter (fun r2 =>
          overlaps r1.start_time r1.end_time r2.start_time r2.end_time)).map
        (overlapMsg rid d r1)) ++ pairOverlapMsgs rid d rest

/-- First-occurrence deduplication, as `pandas.Series.unique`. -/
def uniqueAux : List String → List String → List String
  | [], _ => []
  | x :: xs, seen =>
      if x ∈ seen then uniqueAux xs seen else x :: uniqueAux xs (x :: seen)

def uniqueKeepFirst (l : List String) : List String := uniqueAux l []

/-- `err_msgs` accumulated by the upload handler: for each fixed room id
and each date appearing for that room, the overlap messages of the
group. -/
def bulk_errs (up : List Booking) : List String :=
  ROOM_IDS.flatMap (fun rid =>
    let sub := up.filter (fun r => r.room_id == rid)
    (uniqueKeepFirst (sub.map (fun r => r.date))).flatMap (fun d =>
      pairOverlapMsgs rid d (sub.filter (fun r => r.date == d))))

/-- The upload handler: block when any overlap message was produced,
otherwise `save_bookings(up_df)` replaces the whole store.  Returns
whether the upload was accepted, with the resulting state. -/
def bulk_upload (st : AppState) (up : List Booking) : Bool × AppState :=
  if bulk_errs up = [] then (true, { st with bookings := up })
  else (false, st)

/-! ## The no-overlap invariant -/

/-- No two distinct rows of the list that share a room and a date have
overlapping half-open intervals. -/
def overlapFree : List Booking → Bool
  | [] => true
  | b :: bs =>
      bs.all (fun b2 =>
        !(b.room_id == b2.room_id && b.date == b2.date &&
          overlaps b.start_time b.end_time b2.start_time b2.end_time)) &&
      overlapFree bs

/-- The uploaded set has no pairwise half-open overlap within any
(room, date) group whose room id is one of the fixed `ROOM_IDS`.  (This is
the predicate the upload handler actually enforces: its outer loop ranges
over the fixed rooms only.) -/
def GroupOverlapFree (up : List Booking) : Prop :=
  ∀ rid ∈ ROOM_IDS,
    (up.filter (fun r => r.room_id == rid)).Pairwise
      (fun r1 r2 => r1.date = r2.date →
        overlaps r1.start_time r1.end_time r2.start_time r2.end_time = false)

instance : DecidablePred GroupOverlapFree := fun up => by
  unfold GroupOverlapFree
  infer_instance

end MeetingRoom

namespace MeetingRoom

/-! ## Characterisation of `validate_booking` acceptance -/

/-- Claim C4: `validate_booking` accepts a candidate (returns no error)
if and only if its end is after its start, both times lie within
[09:00, 19:00], both align to the 30-minute slot grid, and its half-open
interval overlaps no existing reservation with the same room and date.
In particular an abutting candidate (start equal to an existing end) makes
`overlaps` false and is accepted, while any true overlap is rejected. -/
theorem validate_booking_none_iff (row : Booking) (df : List Booking) :
    validate_booking row df = none ↔
      (row.start_time < row.end_time
        ∧ BUSINESS_OPEN ≤ row.start_time ∧ row.start_time ≤ BUSINESS_CLOSE
        ∧ BUSINESS_OPEN ≤ row.end_time ∧ row.end_time ≤ BUSINESS_CLOSE
        ∧ row.start_time % SLOT_MINUTES = 0 ∧ row.end_time % SLOT_MINUTES = 0
        ∧ ∀ r ∈ df, r.room_id = row.room_id → r.date = row.date →
            overlaps row.start_time row.end_time r.start_time r.end_time = false) := by
  have hmod : ∀ t : Nat, t % 60 % SLOT_MINUTES = t % SLOT_MINUTES := by
    intro t
    exact Nat.mod_mod_of_dvd t (by decide)
  unfold validate_booking
  by_cases h1 : row.end_time ≤ row.start_time
  · simp only [h1, if_true]
    constructor
    · intro h; cases h
    · rintro ⟨hlt, -⟩; omega
  · rw [if_neg h1]
    by_cases h2 : row.start_time < BUSINESS_OPEN ∨ BUSINESS_CLOSE < row.end_time
    · rw [if_pos h2]
      constructor
      · intro h; cases h
      · rintro ⟨-, ho, -, -, hc, -⟩
        rcases h2 with h | h
        · omega
        · omega
    · rw [if_neg h2]
      push_neg at h2
      by_cases h3 : row.start_time % 60 % SLOT_MINUTES ≠ 0 ∨ row.end_time % 60 % SLOT_MINUTES ≠ 0
      · rw [if_pos h3]
        constructor
        · intro h; cases h
        · rintro ⟨-, -, -, -, -, hs, he, -⟩
          rcases h3 with h | h
          · exact absurd ((hmod _).trans hs) h
          · exact absurd ((hmod _).trans he) h
      · rw [if_neg h3]
        push_neg at h3
        constructor
        · intro hfind
          refine ⟨by omega, h2.1, by omega, by omega, h2.2, (hmod _).symm.trans h3.1,
            (hmod _).symm.trans h3.2, ?_⟩
          intro r hr hroom hdate
          cases hov : overlaps row.start_time row.end_time r.start_time r.end_time with
          | false => rfl
          | true =>
            exfalso
            have hmem : r ∈ df.filter
                (fun r => r.room_id == row.room_id && r.date == row.date) := by
              rw [List.mem_filter]
              exact ⟨hr, by simp [hroom, hdate]⟩
            rcases hfound : (df.filter
                (fun r => r.room_id == row.room_id && r.date == row.date)).find?
                (fun r => overlaps row.start_time row.end_time r.start_time r.end_time) with
              _ | r2
            · have := List.find?_eq_none.mp hfound r hmem
              simp [hov] at this
            · simp only [hfound] at hfind
              simp at hfind
        · rintro ⟨-, -, -, -, -, -, -, hno⟩
          rcases hfound : (df.filter
              (fun r => r.room_id == row.room_id && r.date == row.date)).find?
              (fun r => overlaps row.start_time row.end_time r.start_time r.end_time) with
            _ | r2
          · simp [hfound]
          · exfalso
            have hmem := List.find?_some hfound
            have hin := List.mem_of_find?_eq_some hfound
            rw [List.mem_filter] at hin
            rcases hin with ⟨hin, hpq⟩
            rcases Bool.and_eq_true_iff.mp hpq with ⟨hroom, hdate⟩
            have := hno r2 hin (by simpa using hroom) (by simpa using hdate)
            rw [this] at hmem
            cases hmem

end MeetingRoom

namespace MeetingRoom

/-! ## Helper lemmas -/

theorem otp_hash_inj {a b s : String} (h : otp_hash a s = otp_hash b s) : a = b := by
  have hd : (s ++ ":" ++ a).data = (s ++ ":" ++ b).data := by
    unfold otp_hash at h
    rw [h]
  simp only [String.data_append] at hd
  exact String.ext (List.append_cancel_left hd)

theorem pairOverlapMsgs_eq_nil_iff (rid d : String) (l : List Booking) :
    pairOverlapMsgs rid d l = [] ↔
      l.Pairwise (fun r1 r2 =>
        overlaps r1.start_time r1.end_time r2.start_time r2.end_time = false) := by
  induction l with
  | nil => simp [pairOverlapMsgs]
  | cons r1 rest ih =>
    simp only [pairOverlapMsgs, List.append_eq_nil, List.map_eq_nil_iff,
      List.filter_eq_nil_iff, List.pairwise_cons, ih, Bool.not_eq_true]

theorem mem_uniqueAux (a : String) :
    ∀ (l seen : List String), a ∈ uniqueAux l seen ↔ (a ∈ l ∧ a ∉ seen) := by
  intro l
  induction l with
  | nil => intro seen; simp [uniqueAux]
  | cons x xs ih =>
    intro seen
    by_cases hx : x ∈ seen
    · rw [uniqueAux, if_pos hx, ih]
      constructor
      · rintro ⟨h1, h2⟩
        exact ⟨List.mem_cons_of_mem _ h1, h2⟩
      · rintro ⟨h1, h2⟩
        rcases List.mem_cons.mp h1 with rfl | h1
        · exact absurd hx h2
        · exact ⟨h1, h2⟩
    · rw [uniqueAux, if_neg hx]
      constructor
      · intro h
        rcases List.mem_cons.mp h with rfl | h
        · exact ⟨List.mem_cons_self _ _, hx⟩
        · rcases (ih _).mp h with ⟨h1, h2⟩
          exact ⟨List.mem_cons_of_mem _ h1,
            fun hs => h2 (List.mem_cons_of_mem _ hs)⟩
      · rintro ⟨h1, h2⟩
        rcases List.mem_cons.mp h1 with rfl | h1
        · exact List.mem_cons_self _ _
        · by_cases hax : a = x
          · subst hax
            exact List.mem_cons_self _ _
          · refine List.mem_cons_of_mem _ ((ih _).mpr ⟨h1, fun hs => ?_⟩)
            rcases List.mem_cons.mp hs with h | h
            · exact hax h
            · exact h2 h

theorem mem_uniqueKeepFirst {a : String} {l : List String} :
    a ∈ uniqueKeepFirst l ↔ a ∈ l := by
  rw [uniqueKeepFirst, mem_uniqueAux]
  simp

theorem date_groups_pairwise_iff (R : Booking → Booking → Prop) (sub : List Booking) :
    (∀ d ∈ uniqueKeepFirst (sub.map (fun r => r.date)),
        (sub.filter (fun r => r.date == d)).Pairwise R) ↔
      sub.Pairwise (fun r1 r2 => r1.date = r2.date → R r1 r2) := by
  constructor
  · intro h
    rw [List.pairwise_iff_forall_sublist]
    intro a b hab hdate
    have hmem : a.date ∈ uniqueKeepFirst (sub.map (fun r => r.date)) := by
      rw [mem_uniqueKeepFirst]
      exact List.mem_map.mpr ⟨a, hab.subset (by simp), rfl⟩
    have hfl : [a, b].filter (fun r => r.date == a.date) = [a, b] := by
      simp [List.filter, hdate]
    have h2 := hab.filter (fun r => r.date == a.date)
    rw [hfl] at h2
    exact List.pairwise_iff_forall_sublist.mp (h a.date hmem) h2
  · intro h d hd
    rw [List.pairwise_iff_forall_sublist]
    intro a b hab
    have hsub2 : List.Sublist [a, b] sub := hab.trans (List.filter_sublist sub)
    have hfa : (a.date == d) = true := by
      have ha2 : a ∈ sub.filter (fun r => r.date == d) := hab.subset (by simp)
      exact (List.mem_filter.mp ha2).2
    have hfb : (b.date == d) = true := by
      have hb2 : b ∈ sub.filter (fun r => r.date == d) := hab.subset (by simp)
      exact (List.mem_filter.mp hb2).2
    rw [beq_iff_eq] at hfa hfb
    exact List.pairwise_iff_forall_sublist.mp h hsub2 (hfa.trans hfb.symm)

theorem bulk_errs_eq_nil_iff (up : List Booking) :
    bulk_errs up = [] ↔ GroupOverlapFree up := by
  unfold bulk_errs GroupOverlapFree
  simp only [List.flatMap_eq_nil_iff, pairOverlapMsgs_eq_nil_iff]
  refine forall₂_congr fun rid _ => ?_
  exact date_groups_pairwise_iff _ _

end MeetingRoom

namespace MeetingRoom

/-! ## Claims -/

/-- Claim C1 (code bug): the OTP-approved commit path violates the global
no-overlap invariant.  A gated request for 10:30–11:30 is validated and
queued; a bulk upload then installs a committed board-room reservation
10:00–11:00 for the same date; the subsequent correct-passcode
verification commits the pending row without re-validation, leaving two
overlapping committed reservations for (br, 2024-01-01). -/
theorem otp_approval_commit_violates_no_overlap :
    (let row1 : Booking :=
      { room_id := "br"
        room_name := "Board Room"
        date := "2024-01-01"
        start_time := 630
        end_time := 690
        booked_by := "Avery"
        title := "Budget review"
        created_at := "t0" }
     let row2 : Booking :=
      { row1 with
        start_time := 600
        end_time := 660
        booked_by := "Blake" }
     let s1 := (room_card_book initState row1 0 "2024-01-01" "a@b.c" "123456" "salt1" true "").state
     let s3 := pin_unlock (bulk_upload s1 [row2]).2 "99" "99"
     overlapFree (otp_panel_verify s3 10 "123456").2.bookings = false) := by
  decide

/-- Claim C2 (code bug): no re-validation at approval time.  With a
conflicting reservation committed while the gated request was pending
(`validate_booking` rejects the pending row against the current store),
the correct-passcode verification nevertheless returns the committed
outcome and appends the stale pending row, instead of failing with a
conflict and leaving the store unchanged. -/
theorem otp_approval_skips_revalidation :
    (let row1 : Booking :=
      { room_id := "br"
        room_name := "Board Room"
        date := "2024-02-02"
        start_time := 840
        end_time := 900
        booked_by := "Avery"
        title := "Audit"
        created_at := "t0" }
     let row2 : Booking :=
      { row1 with
        start_time := 870
        end_time := 930
        booked_by := "Blake" }
     let s1 := (room_card_book initState row1 100 "2024-02-02" "a@b.c" "654321" "salty" true "").state
     let s3 := pin_unlock (bulk_upload s1 [row2]).2 "7" "7"
     validate_booking row1 s3.bookings ≠ none ∧
       (otp_panel_verify s3 120 "654321").1 = .approvedBooked row1 ∧
       (otp_panel_verify s3 120 "654321").2.bookings = [row2, row1]) := by
  decide

/-- Claim C3 counterexample: an uploaded set with a pairwise overlap
inside the ("x1", 2024-01-01) group — a room id that is not one of the
fixed rooms — is accepted and replaces the store, although the claim
requires wholesale rejection for every (room, date) group. -/
theorem bulk_upload_accepts_nonfixed_overlap :
    (let xa : Booking :=
      { room_id := "x1"
        room_name := "Annex"
        date := "2024-01-01"
        start_time := 600
        end_time := 660
        booked_by := "A"
        title := "T"
        created_at := "c" }
     let xb : Booking :=
      { xa with
        start_time := 630
        end_time := 690
        booked_by := "B" }
     overlapFree [xa, xb] = false ∧
       bulk_upload initState [xa, xb] = (true, { initState with bookings := [xa, xb] })) := by
  decide

/-- Claim C3 (amended): bulk import is all-or-nothing with respect to the
fixed rooms: the upload is rejected and the store left unchanged exactly
when some (room, date) group whose room id is among the fixed `ROOM_IDS`
contains a pairwise half-open overlap; otherwise the store is replaced by
the uploaded set.  Groups with other room ids are not checked. -/
theorem bulk_upload_fixed_rooms_all_or_nothing (st : AppState) (up : List Booking) :
    (GroupOverlapFree up → bulk_upload st up = (true, { st with bookings := up })) ∧
    (¬ GroupOverlapFree up → bulk_upload st up = (false, st)) := by
  constructor
  · intro h
    rw [bulk_upload, if_pos ((bulk_errs_eq_nil_iff up).mpr h)]
  · intro h
    rw [bulk_upload, if_neg fun he => h ((bulk_errs_eq_nil_iff up).mp he)]

/-- Witness for `bulk_upload_fixed_rooms_all_or_nothing`: an overlap
within the fixed room mr1 is rejected wholesale, leaving the store
unchanged. -/
theorem bulk_upload_fixed_rooms_all_or_nothing_witness :
    bulk_upload initState
      [⟨"mr1", "Meeting Room 1", "2024-01-01", 600, 660, "A", "T", "c"⟩,
       ⟨"mr1", "Meeting Room 1", "2024-01-01", 630, 690, "B", "T", "c"⟩] =
      (false, initState) :=
  (bulk_upload_fixed_rooms_all_or_nothing initState
    [⟨"mr1", "Meeting Room 1", "2024-01-01", 600, 660, "A", "T", "c"⟩,
     ⟨"mr1", "Meeting Room 1", "2024-01-01", 630, 690, "B", "T", "c"⟩]).2 (by decide)

end MeetingRoom

namespace MeetingRoom

/-- Claim C5 counterexample: a session that is already verified and also
expired — `otp_verify` succeeds idempotently although `now > expiry`,
refuting "fails with expired whenever now > expiry" (the verified check
precedes the expiry check in the source). -/
theorem otp_verify_expired_but_verified_succeeds :
    (let ctx : OtpCtx :=
      { salt := "s1"
        hash := otp_hash "123456" "s1"
        expires_at := 0
        attempts_left := 5
        resend_at := 45
        verified := true
        approver_email := "a@b.c"
        booking_row := ⟨"br", "Board Room", "2024-03-03", 600, 660, "A", "T", "c"⟩ }
     ctx.expires_at < 1 ∧
       (otp_verify 1 "999999" (some ctx)).1 = (true, "Already verified.")) := by
  decide

/-- Claim C5 (amended): the `otp_verify` outcome taxonomy with the checks
applied in source order — missing session, already-verified (idempotent
success, session unchanged), expiry, lockout, then salted-hash comparison
of the stripped candidate; a match sets `verified` and succeeds, a
mismatch decrements `attempts_left` and fails reporting the updated
remaining-attempts count. -/
theorem otp_verify_cases (now : Nat) (u : String) (ctx : OtpCtx) :
    otp_verify now u none = ((false, "Session missing."), none) ∧
    (ctx.verified = true →
      otp_verify now u (some ctx) = ((true, "Already verified."), some ctx)) ∧
    (ctx.verified = false → ctx.expires_at < now →
      otp_verify now u (some ctx) = ((false, "OTP expired. Please resend."), some ctx)) ∧
    (ctx.verified = false → ¬ ctx.expires_at < now → ctx.attempts_left ≤ 0 →
      otp_verify now u (some ctx) =
        ((false, "Too many wrong attempts. Please resend."), some ctx)) ∧
    (ctx.verified = false → ¬ ctx.expires_at < now → 0 < ctx.attempts_left →
      otp_hash (pyStrip u) ctx.salt = ctx.hash →
      otp_verify now u (some ctx) =
        ((true, "Verified."), some { ctx with verified := true })) ∧
    (ctx.verified = false → ¬ ctx.expires_at < now → 0 < ctx.attempts_left →
      otp_hash (pyStrip u) ctx.salt ≠ ctx.hash →
      otp_verify now u (some ctx) =
        ((false, "Incorrect OTP. Attempts left: " ++ toString (ctx.attempts_left - 1)),
          some { ctx with attempts_left := ctx.attempts_left - 1 })) := by
  refine ⟨rfl, ?_, ?_, ?_, ?_, ?_⟩
  · intro hv
    simp [otp_verify, hv]
  · intro hv he
    simp [otp_verify, hv, he]
  · intro hv he hl
    simp [otp_verify, hv, he, hl]
  · intro hv he hl hh
    have hl2 : ¬ ctx.attempts_left ≤ 0 := by omega
    simp [otp_verify, hv, he, hl2, hh]
  · intro hv he hl hh
    have hl2 : ¬ ctx.attempts_left ≤ 0 := by omega
    simp [otp_verify, hv, he, hl2, hh]

/-- Witness for `otp_verify_cases`: the mismatch branch at a concrete
session decrements the counter and reports 4 attempts left. -/
theorem otp_verify_cases_witness :
    (let ctx : OtpCtx :=
      { salt := "s1"
        hash := otp_hash "123456" "s1"
        expires_at := 300
        attempts_left := 5
        resend_at := 45
        verified := false
        approver_email := "a@b.c"
        booking_row := ⟨"br", "Board Room", "2024-03-03", 600, 660, "A", "T", "c"⟩ }
     otp_verify 10 "111111" (some ctx) =
       ((false, "Incorrect OTP. Attempts left: " ++ toString (ctx.attempts_left - 1)),
         some { ctx with attempts_left := ctx.attempts_left - 1 })) :=
  (otp_verify_cases 10 "111111"
    { salt := "s1"
      hash := otp_hash "123456" "s1"
      expires_at := 300
      attempts_left := 5
      resend_at := 45
      verified := false
      approver_email := "a@b.c"
      booking_row := ⟨"br", "Board Room", "2024-03-03", 600, 660, "A", "T", "c"⟩ }).2.2.2.2.2
    rfl (by decide) (by decide) (by decide)

end MeetingRoom

namespace MeetingRoom

/-- Claim C6 counterexample: starting from a fresh session, the 5th
consecutive wrong verification attempt returns the mismatch failure
"Incorrect OTP. Attempts left: 0", not the locked-out failure — the
locked-out message only appears from the 6th attempt on. -/
theorem fifth_wrong_attempt_reports_zero_not_locked :
    (let ctx : OtpCtx :=
      otp_start_session ⟨"br", "Board Room", "2024-03-03", 600, 660, "A", "T", "c"⟩
        "a@b.c" 0 "123456" "salt1"
     let v5 := otp_verify 10 "000000" (otp_verify 10 "000000" (otp_verify 10 "000000"
       (otp_verify 10 "000000" (otp_verify 10 "000000" (some ctx)).2).2).2).2
     v5.1 = (false, "Incorrect OTP. Attempts left: 0") ∧
       v5.1 ≠ (false, "Too many wrong attempts. Please resend.")) := by
  decide

/-- Claim C6 (amended): from a fresh session with 5 attempts, five
consecutive wrong-passcode verifications fail, the 5th reporting zero
attempts left and leaving the session locked; a 6th attempt with the
correct passcode returns the locked-out failure; after a resend (which
resets the attempt counter) the correct new passcode verifies. -/
theorem lockout_after_five_wrong_attempts (now nowr : Nat) (w c np ns : String)
    (ctx : OtpCtx)
    (hver : ctx.verified = false) (hatt : ctx.attempts_left = 5)
    (hexp : ¬ ctx.expires_at < now)
    (hw : otp_hash (pyStrip w) ctx.salt ≠ ctx.hash)
    (hc : otp_hash (pyStrip c) ctx.salt = ctx.hash)
    (hnp : pyStrip np = np)
    (hexp2 : ¬ now + OTP_TTL_MINUTES * 60 < nowr) :
    (otp_verify now w (otp_verify now w (otp_verify now w (otp_verify now w
        (otp_verify now w (some ctx)).2).2).2).2).1 =
      (false, "Incorrect OTP. Attempts left: 0") ∧
    (otp_verify now c (otp_verify now w (otp_verify now w (otp_verify now w
        (otp_verify now w (otp_verify now w (some ctx)).2).2).2).2).2).1 =
      (false, "Too many wrong attempts. Please resend.") ∧
    (otp_verify nowr np (otp_resend now np ns
        (otp_verify now w (otp_verify now w (otp_verify now w (otp_verify now w
          (otp_verify now w (some ctx)).2).2).2).2).2).2).1.1 = true := by
  obtain ⟨slt, hsh, exp, att, rsd, ver, ae, brw⟩ := ctx
  dsimp only at hver hatt hexp hw hc
  subst hver
  subst hatt
  have step : ∀ a : Int, 0 < a →
      otp_verify now w (some ⟨slt, hsh, exp, a, rsd, false, ae, brw⟩) =
        ((false, "Incorrect OTP. Attempts left: " ++ toString (a - 1)),
          some ⟨slt, hsh, exp, a - 1, rsd, false, ae, brw⟩) := by
    intro a ha
    have ha2 : ¬ a ≤ 0 := by omega
    simp [otp_verify, hexp, hw, ha2]
  have hchain :
      (otp_verify now w (otp_verify now w (otp_verify now w (otp_verify now w
          (otp_verify now w (some ⟨slt, hsh, exp, 5, rsd, false, ae, brw⟩)).2).2).2).2) =
        ((false, "Incorrect OTP. Attempts left: " ++ toString ((0:Int))),
          some ⟨slt, hsh, exp, 0, rsd, false, ae, brw⟩) := by
    rw [step 5 (by norm_num)]
    norm_num
    rw [step 4 (by norm_num)]
    norm_num
    rw [step 3 (by norm_num)]
    norm_num
    rw [step 2 (by norm_num)]
    norm_num
    rw [step 1 (by norm_num)]
    norm_num
  refine ⟨?_, ?_, ?_⟩
  · rw [hchain]
    show (false, "Incorrect OTP. Attempts left: " ++ toString ((0:Int))) =
      (false, "Incorrect OTP. Attempts left: 0")
    decide
  · rw [hchain]
    simp [otp_verify, hexp]
  · rw [hchain]
    have hmatch : otp_hash (pyStrip np) ns = otp_hash np ns := by rw [hnp]
    simp [otp_resend, otp_verify, hexp2, hmatch, OTP_MAX_ATTEMPTS]

/-- Witness for `lockout_after_five_wrong_attempts` at a concrete fresh
session: after five wrong attempts the 6th (correct) attempt is locked
out. -/
theorem lockout_after_five_wrong_attempts_witness :
    (otp_verify 10 "123456" (otp_verify 10 "000000" (otp_verify 10 "000000"
        (otp_verify 10 "000000" (otp_verify 10 "000000" (otp_verify 10 "000000"
          (some (otp_start_session ⟨"br", "Board Room", "2024-03-03", 600, 660, "A", "T", "c"⟩
            "a@b.c" 0 "123456" "salt1"))).2).2).2).2).2).1 =
      (false, "Too many wrong attempts. Please resend.") :=
  (lockout_after_five_wrong_attempts 10 20 "000000" "123456" "654321" "salt2"
    (otp_start_session ⟨"br", "Board Room", "2024-03-03", 600, 660, "A", "T", "c"⟩
      "a@b.c" 0 "123456" "salt1")
    rfl rfl (by decide) (by decide) (by decide) (by decide) (by decide)).2.1

end MeetingRoom

namespace MeetingRoom

/-- Claim C7: `otp_resend` fails when no session exists; on an existing
session it rotates salt and hash to the fresh values (the new hash is the
digest of the new plaintext), resets expiry to now + TTL, resets
`attempts_left` to the maximum, resets the resend cooldown and the
verified flag, leaving the approver and pending row unchanged; and after
the resend the old passcode no longer verifies (for a rotated passcode
distinct from the old one). -/
theorem otp_resend_spec (now now2 : Nat) (np ns op : String) (ctx : OtpCtx)
    (hop : pyStrip op = op) (hne : op ≠ np)
    (hexp2 : ¬ now + OTP_TTL_MINUTES * 60 < now2) :
    otp_resend now np ns none = ((false, "No OTP session."), none) ∧
    otp_resend now np ns (some ctx) =
      ((true, np),
        some { ctx with
          salt := ns
          hash := otp_hash np ns
          expires_at := now + OTP_TTL_MINUTES * 60
          attempts_left := OTP_MAX_ATTEMPTS
          resend_at := now + OTP_RESEND_COOLDOWN_SECONDS
          verified := false }) ∧
    (otp_verify now2 op (otp_resend now np ns (some ctx)).2).1.1 = false := by
  refine ⟨rfl, rfl, ?_⟩
  have hmis : otp_hash (pyStrip op) ns ≠ otp_hash np ns := by
    rw [hop]
    intro h
    exact hne (otp_hash_inj h)
  simp [otp_resend, otp_verify, hexp2, hmis, OTP_MAX_ATTEMPTS]

/-- Witness for `otp_resend_spec`: after a concrete resend the old
passcode 123456 no longer verifies. -/
theorem otp_resend_spec_witness :
    (otp_verify 150 "123456" (otp_resend 100 "654321" "s2"
        (some (otp_start_session ⟨"br", "Board Room", "2024-03-03", 600, 660, "A", "T", "c"⟩
          "a@b.c" 0 "123456" "salt1"))).2).1.1 = false :=
  (otp_resend_spec 100 150 "654321" "s2" "123456"
    (otp_start_session ⟨"br", "Board Room", "2024-03-03", 600, 660, "A", "T", "c"⟩
      "a@b.c" 0 "123456" "salt1")
    (by decide) (by decide) (by decide)).2.2

/-- Claim C8: delivery-failure atomicity for gated requests.  For a valid
board-room request under the daily limit: when delivery fails the request
is rejected with the delivery failure, the just-created session is
cleared (no dangling session), and neither the rate counter nor the store
changes; when delivery succeeds the send is recorded — the quota is
consumed only on confirmed delivery. -/
theorem gated_delivery_failure_atomic (st : AppState) (row : Booking) (now : Nat)
    (day appr fo fs dmsg : String)
    (htitle : row.title ≠ "") (hhost : row.booked_by ≠ "")
    (hvalid : validate_booking row st.bookings = none)
    (hbr : row.room_id = "br")
    (hmail : is_email appr = true)
    (hquota : rate_get st.rate (otp_bucket_key appr day) < OTP_DAILY_LIMIT) :
    ((room_card_book st row now day appr fo fs false dmsg).result = .deliveryFailed dmsg ∧
     (room_card_book st row now day appr fo fs false dmsg).state.otp_ctx = none ∧
     (room_card_book st row now day appr fo fs false dmsg).state.rate = st.rate ∧
     (room_card_book st row now day appr fo fs false dmsg).state.bookings = st.bookings) ∧
    ((room_card_book st row now day appr fo fs true dmsg).result = .pendingApproval ∧
     (room_card_book st row now day appr fo fs true dmsg).state.rate =
       otp_inc_send st.rate appr day) := by
  have hcan : (otp_can_send st.rate appr day).1 = true := by
    simp [otp_can_send, hquota]
  simp [room_card_book, hvalid, hbr, hmail, hcan, htitle, hhost, otp_reset]

/-- Witness for `gated_delivery_failure_atomic`: a concrete failed
delivery leaves no session behind. -/
theorem gated_delivery_failure_atomic_witness :
    (room_card_book initState ⟨"br", "Board Room", "2024-04-04", 600, 660, "A", "T", "c"⟩
      0 "2024-04-04" "a@b.c" "123456" "s1" false "boom").state.otp_ctx = none :=
  (gated_delivery_failure_atomic initState
    ⟨"br", "Board Room", "2024-04-04", 600, 660, "A", "T", "c"⟩
    0 "2024-04-04" "a@b.c" "123456" "s1" "boom"
    (by decide) (by decide) (by decide) (by decide) (by decide) (by decide)).1.2.1

/-- Claim C9: once the approver's rate-limit bucket for the current UTC
day has reached the daily limit, a further valid gated-room request is
rejected with the daily-limit outcome, the state (in particular the OTP
session) is unchanged, and no email delivery is attempted. -/
theorem daily_limit_rejects_without_session (st : AppState) (row : Booking) (now : Nat)
    (day appr fo fs dmsg : String) (dok : Bool)
    (htitle : row.title ≠ "") (hhost : row.booked_by ≠ "")
    (hvalid : validate_booking row st.bookings = none)
    (hbr : row.room_id = "br")
    (hmail : is_email appr = true)
    (hquota : OTP_DAILY_LIMIT ≤ rate_get st.rate (otp_bucket_key appr day)) :
    (room_card_book st row now day appr fo fs dok dmsg).result = .dailyLimit ∧
    (room_card_book st row now day appr fo fs dok dmsg).state = st ∧
    (room_card_book st row now day appr fo fs dok dmsg).email_attempted = false := by
  have hcan : (otp_can_send st.rate appr day).1 = false := by
    simp only [otp_can_send, decide_eq_false_iff_not]
    omega
  simp [room_card_book, hvalid, hbr, hmail, hcan, htitle, hhost]

/-- Witness for `daily_limit_rejects_without_session`: a bucket at the
limit of 50 sends rejects the next request. -/
theorem daily_limit_rejects_without_session_witness :
    (room_card_book
      { bookings := [], otp_ctx := none,
        rate := [("a@b.c::2024-05-05", 50)], approver_pin_ok := false }
      ⟨"br", "Board Room", "2024-05-05", 600, 660, "A", "T", "c"⟩
      0 "2024-05-05" "a@b.c" "123456" "s1" true "m").result = .dailyLimit :=
  (daily_limit_rejects_without_session
    { bookings := [], otp_ctx := none,
      rate := [("a@b.c::2024-05-05", 50)], approver_pin_ok := false }
    ⟨"br", "Board Room", "2024-05-05", 600, 660, "A", "T", "c"⟩
    0 "2024-05-05" "a@b.c" "123456" "s1" "m" true
    (by decide) (by decide) (by decide) (by decide) (by decide) (by decide)).1

/-- Claim C10: the resend path never touches the rate-limit store — for
every state and every outcome of the resend button (missing session, PIN
gate, cooldown, successful or failed delivery) the rate map of the
resulting state is unchanged. -/
theorem resend_path_preserves_rate (st : AppState) (now : Nat)
    (fo fs dmsg : String) (dok : Bool) :
    (otp_panel_resend st now fo fs dok dmsg).2.rate = st.rate := by
  rcases hctx : st.otp_ctx with _ | ctx
  · simp [otp_panel_resend, hctx]
  · by_cases hpin : st.approver_pin_ok = false
    · simp [otp_panel_resend, hctx, hpin]
    · by_cases hcd : now < ctx.resend_at
      · simp [otp_panel_resend, hctx, hpin, hcd]
      · cases dok
        · simp [otp_panel_resend, otp_resend, hctx, hpin, hcd]
        · simp [otp_panel_resend, otp_resend, hctx, hpin, hcd]

end MeetingRoom
